import Mathlib

/-!
Shallow embedding of the provisioning backend (`src/app.js`).

The program is an Express app whose core logic is three orchestration
handlers (bucket provisioning, bucket deprovisioning, instance
provisioning) plus a website-test endpoint.  Each handler is a sequence
of blocking remote calls to AWS SDK clients.  We embed each handler as a
pure function from a *provider behavior* (what each remote call would
return, modelling `s3Client.send` / `lightsailClient.send`) and the
request data to the pair of the HTTP response produced and the ordered
trace of remote calls actually issued.

JavaScript `undefined`/string values are modelled as `Option String`;
a thrown provider error is a `JsErr` carrying the JS `error.name`
(`Option String`, since `name` can itself be absent) and `error.message`.
-/

/-- A JavaScript exception as the handlers observe it: its `name` field
(possibly absent, matching `error.name || ...` fallbacks in the source)
and its `message` field. -/
structure JsErr where
  name : Option String
  message : String := ""
  deriving Repr, DecidableEq

/-- JS truthiness of a possibly-`undefined` string: `undefined` and `""`
are falsy, every other string is truthy. -/
def jsTruthy : Option String → Bool
  | none => false
  | some s => !(s == "")

/-- JS string coercion `String(v)` of a possibly-`undefined` string:
`undefined` coerces to the literal string `"undefined"` (this is what
`RegExp.test` does to a non-string argument). -/
def jsToString : Option String → String
  | none => "undefined"
  | some s => s

/-- JS `v || d` on a possibly-`undefined` string with a string default:
the value when truthy, otherwise the default. -/
def jsOrStr (v : Option String) (d : String) : String :=
  match v with
  | none => d
  | some s => if s == "" then d else s

/-- JS `a || b` on two possibly-`undefined` strings
(`keyPairData.privateKey || keyPairData.privateKeyBase64`). -/
def jsOrOpt (a b : Option String) : Option String :=
  if jsTruthy a then a else b

/-- One remote call to the S3 client, as issued by `s3Client.send`.
Bucket arguments are `Option String` because the source passes the raw
request-body value, which can be `undefined`. -/
inductive S3Call where
  | headBucket (bucket : Option String)
  | createBucket (bucket : Option String)
  | putPublicAccessBlock (bucket : Option String)
  | putBucketPolicy (bucket : Option String)
  | putBucketWebsite (bucket : Option String)
  | putBucketCors (bucket : Option String)
  | putObject (bucket : Option String) (key : String)
  | deleteBucket (bucket : Option String)
  | getBucketLocation (bucket : Option String)
  | listObjectsV2 (bucket : Option String)
  deriving Repr, DecidableEq

/-- Is this S3 call a `DeleteBucketCommand`? -/
def S3Call.isDelete : S3Call → Bool
  | .deleteBucket _ => true
  | _ => false

/-- The storage provider's behavior: what each `s3Client.send` would
return (`Except.ok`) or throw (`Except.error`).  `getBucketLocation`
yields the optional `LocationConstraint`; `listObjectsV2` yields the
optional `Contents` array (modelled by its list of keys). -/
structure S3Behavior where
  headBucket : Option String → Except JsErr Unit
  createBucket : Option String → Except JsErr Unit
  putPublicAccessBlock : Option String → Except JsErr Unit
  putBucketPolicy : Option String → Except JsErr Unit
  putBucketWebsite : Option String → Except JsErr Unit
  putBucketCors : Option String → Except JsErr Unit
  putObject : Option String → String → Except JsErr Unit
  deleteBucket : Option String → Except JsErr Unit
  getBucketLocation : Option String → Except JsErr (Option String)
  listObjectsV2 : Option String → Except JsErr (Option (List String))

/-- An HTTP response as produced by the handlers.  `status` is the HTTP
status code (`res.json` without `res.status` is 200); `errorType` /
`error` are the JSON error fields; `success` / `message` the success
fields; `privateKey` / `keyPairName` embed the `keyPair` object of the
instance-creation response. -/
structure HttpResponse where
  status : Nat
  errorType : Option String := none
  error : Option String := none
  success : Bool := false
  message : Option String := none
  privateKey : Option String := none
  keyPairName : Option String := none
  deriving Repr, DecidableEq

/-- The bucket-name character class `[a-z0-9-]`. -/
def isBucketChar (c : Char) : Bool :=
  ('a' ≤ c && c ≤ 'z') || ('0' ≤ c && c ≤ '9') || c == '-'

/-- Does the character list contain two consecutive dots
(the `(?!.*\.\.)` lookahead)? -/
def hasDoubleDot : List Char → Bool
  | '.' :: '.' :: _ => true
  | _ :: rest => hasDoubleDot rest
  | [] => false

/-- The bucket-name regex `^(?=.{3,63}$)(?!.*\.\.)(?!-)[a-z0-9-]+(?<!-)$`
from `app.js` line 83: total length 3–63, no `".."` substring, a
non-empty run of `[a-z0-9-]` not starting and not ending with `-`. -/
def bucketNameMatches (s : String) : Bool :=
  let cs := s.data
  decide (3 ≤ cs.length) && decide (cs.length ≤ 63)
    && !(hasDoubleDot cs)
    && (match cs.head? with | some c => c != '-' | none => false)
    && cs.all isBucketChar
    && (match cs.getLast? with | some c => c != '-' | none => false)

/-- Run a list of (call, provider outcome) pairs in order, stopping at the
first thrown error: returns the trace of calls actually issued (including
the failing one) and the error that stopped the run, if any. -/
def runSeq : List (S3Call × Except JsErr Unit) → List S3Call × Option JsErr
  | [] => ([], none)
  | (c, Except.ok _) :: rest =>
    let r := runSeq rest
    (c :: r.1, r.2)
  | (c, Except.error e) :: _ => ([c], some e)

/-- The configuration steps the bucket-provisioning handler performs after
`CreateBucketCommand`, in source order (app.js lines 110–178):
public-access block, bucket policy, website configuration, CORS, and the
two default `PutObjectCommand` uploads. -/
def postCreateSteps (B : S3Behavior) (bucketName : Option String) :
    List (S3Call × Except JsErr Unit) :=
  [ (S3Call.putPublicAccessBlock bucketName, B.putPublicAccessBlock bucketName),
    (S3Call.putBucketPolicy bucketName, B.putBucketPolicy bucketName),
    (S3Call.putBucketWebsite bucketName, B.putBucketWebsite bucketName),
    (S3Call.putBucketCors bucketName, B.putBucketCors bucketName),
    (S3Call.putObject bucketName "index.html", B.putObject bucketName "index.html"),
    (S3Call.putObject bucketName "error.html", B.putObject bucketName "error.html") ]

/-- The `catch` block of POST /api/buckets (app.js lines 186–205):
re-resolve the bucket name as `req.body?.bucketName || 'nombre_no_definido'`,
issue the best-effort rollback `DeleteBucketCommand` whenever the caught
error is not named `BucketAlreadyExists` (a rollback failure is only
logged: both outcomes of the delete produce the same response), and
answer 500 with `errorType: error.name || 'UnknownError'` and the generic
message. -/
def rollbackAndRespond (B : S3Behavior) (bodyBucketName : Option String)
    (err : JsErr) (trace : List S3Call) : HttpResponse × List S3Call :=
  let bucketName := jsOrStr bodyBucketName "nombre_no_definido"
  let doRollback := !(bucketName == "") && !(err.name == some "BucketAlreadyExists")
  let trace' :=
    if doRollback then
      match B.deleteBucket (some bucketName) with
      | Except.ok _ => trace ++ [S3Call.deleteBucket (some bucketName)]
      | Except.error _ => trace ++ [S3Call.deleteBucket (some bucketName)]
    else trace
  ({ status := 500,
     errorType := some (jsOrStr err.name "UnknownError"),
     error := some "Error al configurar el hosting estático" }, trace')

/-- POST /api/buckets (app.js lines 78–206): syntax-validate the name
(the regex `test` coerces a missing `bucketName` to the string
`"undefined"`), probe existence with `HeadBucketCommand` (success → 409
`BucketAlreadyExists`; a probe error not named `NotFound` is rethrown
into the outer catch), then create and configure the bucket; any thrown
error lands in `rollbackAndRespond`. -/
def createBucketHandler (B : S3Behavior) (bodyBucketName : Option String) :
    HttpResponse × List S3Call :=
  if !(bucketNameMatches (jsToString bodyBucketName)) then
    ({ status := 400, errorType := some "InvalidNameFormat",
       error := some "Formato de nombre inválido" }, [])
  else
    match B.headBucket bodyBucketName with
    | Except.ok _ =>
      ({ status := 409, errorType := some "BucketAlreadyExists",
         error := some "El bucket ya existe en AWS" },
       [S3Call.headBucket bodyBucketName])
    | Except.error headError =>
      if headError.name == some "NotFound" then
        match B.createBucket bodyBucketName with
        | Except.error e =>
          rollbackAndRespond B bodyBucketName e
            [S3Call.headBucket bodyBucketName, S3Call.createBucket bodyBucketName]
        | Except.ok _ =>
          match runSeq (postCreateSteps B bodyBucketName) with
          | (t, some e) =>
            rollbackAndRespond B bodyBucketName e
              ([S3Call.headBucket bodyBucketName, S3Call.createBucket bodyBucketName] ++ t)
          | (t, none) =>
            ({ status := 201, success := true,
               message := some ("Bucket " ++ jsToString bodyBucketName
                 ++ " creado con hosting estático") },
             [S3Call.headBucket bodyBucketName, S3Call.createBucket bodyBucketName] ++ t)
      else
        rollbackAndRespond B bodyBucketName headError
          [S3Call.headBucket bodyBucketName]

/-- The error response of the DELETE /api/buckets/:bucketName catch block
(app.js lines 239–250): message refined for `AccessDenied` and
`NoSuchBucket`, `errorType: error.name || 'UnknownError'`. -/
def deleteErrResponse (err : JsErr) : HttpResponse :=
  let message :=
    if err.name == some "NoSuchBucket" then "El bucket no existe"
    else if err.name == some "AccessDenied" then "Permisos insuficientes en AWS"
    else "Error al eliminar el bucket"
  { status := 500, errorType := some (jsOrStr err.name "UnknownError"),
    error := some message }

/-- JS `Contents?.length > 0`: false when `Contents` is absent. -/
def jsLenGtZero : Option (List String) → Bool
  | none => false
  | some l => decide (0 < l.length)

/-- DELETE /api/buckets/:bucketName (app.js lines 208–251): fetch the
bucket location (the region comparison on lines 218–220 computes an
unused value and is behaviorally a no-op), list the contents, fail 400
`BucketNotEmpty` when `Contents?.length > 0`, otherwise delete.  Any
thrown provider error yields the catch block's 500 response.  The path
parameter is always a string. -/
def deleteBucketHandler (B : S3Behavior) (bucketName : String) :
    HttpResponse × List S3Call :=
  match B.getBucketLocation (some bucketName) with
  | Except.error e => (deleteErrResponse e, [S3Call.getBucketLocation (some bucketName)])
  | Except.ok _loc =>
    match B.listObjectsV2 (some bucketName) with
    | Except.error e =>
      (deleteErrResponse e,
       [S3Call.getBucketLocation (some bucketName), S3Call.listObjectsV2 (some bucketName)])
    | Except.ok contents =>
      if jsLenGtZero contents then
        ({ status := 400, errorType := some "BucketNotEmpty",
           error := some "El bucket contiene archivos" },
         [S3Call.getBucketLocation (some bucketName), S3Call.listObjectsV2 (some bucketName)])
      else
        match B.deleteBucket (some bucketName) with
        | Except.error e =>
          (deleteErrResponse e,
           [S3Call.getBucketLocation (some bucketName),
            S3Call.listObjectsV2 (some bucketName), S3Call.deleteBucket (some bucketName)])
        | Except.ok _ =>
          ({ status := 200, success := true,
             message := some ("Bucket " ++ bucketName ++ " eliminado") },
           [S3Call.getBucketLocation (some bucketName),
            S3Call.listObjectsV2 (some bucketName), S3Call.deleteBucket (some bucketName)])

/-- JS `String.prototype.startsWith`: character-wise prefix test
(`availabilityZone.startsWith(process.env.LIGHTSAIL_REGION)`). -/
def jsStartsWith (s pre : String) : Bool :=
  s.data.take pre.data.length == pre.data

/-- One remote call to the Lightsail client, as issued by
`lightsailClient.send` within the instance-creation handler. -/
inductive LsCall where
  | getInstance (instanceName : Option String)
  | createKeyPair (keyPairName : String)
  | createInstances (instanceName blueprintId bundleId availabilityZone : Option String)
      (keyPairName : String)
  deriving Repr, DecidableEq

/-- Is this Lightsail call a `CreateKeyPairCommand`? -/
def LsCall.isCreateKeyPair : LsCall → Bool
  | .createKeyPair _ => true
  | _ => false

/-- Is this Lightsail call a `CreateInstancesCommand`? -/
def LsCall.isCreateInstances : LsCall → Bool
  | .createInstances _ _ _ _ _ => true
  | _ => false

/-- The `CreateKeyPairCommand` response as the handler reads it: the
primary `privateKey` field and the `privateKeyBase64` variant, either of
which may be absent. -/
structure KeyPairResp where
  privateKey : Option String
  privateKeyBase64 : Option String
  deriving Repr, DecidableEq

/-- The `CreateInstancesCommand` response as the handler reads it: the
optional `operations` array (its absence is only a logged warning). -/
structure CreateInstResp where
  operations : Option (List String)
  deriving Repr, DecidableEq

/-- The compute provider's behavior: what each `lightsailClient.send`
would return or throw, for the three commands the creation handler
issues. -/
structure LsBehavior where
  getInstance : Option String → Except JsErr Unit
  createKeyPair : String → Except JsErr KeyPairResp
  createInstances : Option String → Option String → Option String → Option String →
    String → Except JsErr CreateInstResp

/-- The user-facing message for a `CreateInstancesCommand` failure
(app.js lines 373–380). -/
def createInstancesUserMessage (err : JsErr) : String :=
  if err.name == some "InvalidInputException" then
    "Error en los datos proporcionados (blueprint, bundle, zone inválidos?)."
  else if err.name == some "ServiceException" then
    "Error del servicio Lightsail: " ++ err.message
  else
    "Error inesperado: " ++ err.message

/-- POST /api/lightsail/instances (app.js lines 293–405): require the
four body fields truthy, require `availabilityZone` to start with the
configured `LIGHTSAIL_REGION`, probe name uniqueness with
`GetInstanceCommand` (success → 409 `InstanceAlreadyExists`; an error
named neither `NotFoundException` nor `DoesNotExist` → 500), create the
key pair `my-app-<uuid>`, extract
`keyPairData.privateKey || keyPairData.privateKeyBase64` (absence → 500
`PrivateKeyMissingInResponse`, before any instance creation), create the
instance, and on success answer 201 with the key-pair name and private
key.  `region` is `process.env.LIGHTSAIL_REGION` and `uuid` the value of
`uuidv4()` for this invocation. -/
def createInstanceHandler (B : LsBehavior) (region uuid : String)
    (instanceName blueprintId bundleId availabilityZone : Option String) :
    HttpResponse × List LsCall :=
  if !(jsTruthy instanceName) || !(jsTruthy blueprintId) || !(jsTruthy bundleId)
      || !(jsTruthy availabilityZone) then
    ({ status := 400, error := some "Faltan parámetros necesarios." }, [])
  else if !(jsStartsWith (jsToString availabilityZone) region) then
    ({ status := 400,
       error := some ("La zona de disponibilidad debe estar en la región " ++ region) }, [])
  else
    match B.getInstance instanceName with
    | Except.ok _ =>
      ({ status := 409, errorType := some "InstanceAlreadyExists",
         error := some ("Ya existe una instancia con el nombre '"
           ++ jsToString instanceName ++ "'. Por favor, elige otro nombre.") },
       [LsCall.getInstance instanceName])
    | Except.error probeErr =>
      if probeErr.name == some "NotFoundException" || probeErr.name == some "DoesNotExist" then
        let keyPairName := "my-app-" ++ uuid
        match B.createKeyPair keyPairName with
        | Except.error e =>
          ({ status := 500, errorType := e.name,
             error := some "Error al crear la clave SSH." },
           [LsCall.getInstance instanceName, LsCall.createKeyPair keyPairName])
        | Except.ok keyPairData =>
          let privateKey := jsOrOpt keyPairData.privateKey keyPairData.privateKeyBase64
          if !(jsTruthy privateKey) then
            ({ status := 500, errorType := some "PrivateKeyMissingInResponse",
               error := some "No se pudo obtener la clave privada de la clave SSH creada." },
             [LsCall.getInstance instanceName, LsCall.createKeyPair keyPairName])
          else
            match B.createInstances instanceName blueprintId bundleId availabilityZone
                keyPairName with
            | Except.error e =>
              ({ status := 500, errorType := e.name,
                 error := some (createInstancesUserMessage e) },
               [LsCall.getInstance instanceName, LsCall.createKeyPair keyPairName,
                LsCall.createInstances instanceName blueprintId bundleId availabilityZone
                  keyPairName])
            | Except.ok _instanceCreationData =>
              ({ status := 201, success := true,
                 message := some "Instancia de Lightsail creada con clave SSH personalizada.",
                 keyPairName := some keyPairName, privateKey := privateKey },
               [LsCall.getInstance instanceName, LsCall.createKeyPair keyPairName,
                LsCall.createInstances instanceName blueprintId bundleId availabilityZone
                  keyPairName])
      else
        ({ status := 500, errorType := probeErr.name,
           error := some "Error al verificar la existencia de la instancia." },
         [LsCall.getInstance instanceName])

/-- The `fetch` response as the website-test handler reads it. -/
structure FetchResp where
  status : Nat
  ok : Bool
  deriving Repr, DecidableEq

/-- The function identifiers defined anywhere in the program's three
source files: `app.js` declares only `isBucketNameAvailable` (its route
handlers are anonymous), the config module declares none, and the
stand-alone credentials script declares `testCredentials`.
`getWebsiteEndpoint` is not among them. -/
def programFunctionNames : List String := ["isBucketNameAvailable", "testCredentials"]

/-- JS identifier resolution for the call `getWebsiteEndpoint(...)` in
the website-test handler: the binding exists only if the name is defined
somewhere in the program; an unbound identifier throws a
`ReferenceError` when evaluated. -/
def resolveGetWebsiteEndpoint : Option (String → String → String) :=
  if "getWebsiteEndpoint" ∈ programFunctionNames then
    some (fun _ _ => "")
  else none

/-- GET /api/buckets/:bucketName/website-test (app.js lines 407–421):
compute the test URL with `getWebsiteEndpoint` and `fetch` it.  If the
identifier is unbound, evaluating the call throws a `ReferenceError`
before `fetch`; any throw is caught and answered with 500 and the message
"Error testing website".  The boolean in the result records whether a
`fetch` was issued. -/
def websiteTestHandler (resolved : Option (String → String → String))
    (fetch : String → Except JsErr FetchResp) (bucketName region : String) :
    HttpResponse × Bool :=
  match resolved with
  | none => ({ status := 500, error := some "Error testing website" }, false)
  | some getWebsiteEndpoint =>
    let testUrl := getWebsiteEndpoint bucketName region
    match fetch testUrl with
    | Except.error _ => ({ status := 500, error := some "Error testing website" }, true)
    | Except.ok response =>
      ({ status := 200, success := response.ok, message := some testUrl }, true)

/-- A storage behavior on which every remote call succeeds, the bucket is
absent (`HeadBucketCommand` would still throw for a fresh name — this
behavior models an *existing* bucket for the probe) and empty. -/
def allOkBehavior : S3Behavior where
  headBucket := fun _ => Except.ok ()
  createBucket := fun _ => Except.ok ()
  putPublicAccessBlock := fun _ => Except.ok ()
  putBucketPolicy := fun _ => Except.ok ()
  putBucketWebsite := fun _ => Except.ok ()
  putBucketCors := fun _ => Except.ok ()
  putObject := fun _ _ => Except.ok ()
  deleteBucket := fun _ => Except.ok ()
  getBucketLocation := fun _ => Except.ok none
  listObjectsV2 := fun _ => Except.ok (some [])

/-- A matching bucket name is non-empty (the pattern requires at least
three characters). -/
theorem bucketNameMatches_ne_empty {s : String} (h : bucketNameMatches s = true) :
    (s == "") = false := by
  rcases hs : (s == "") with _ | _
  · rfl
  · exfalso
    have hse : s = "" := by
      have := (beq_iff_eq (a := s) (b := "")).mp hs
      exact this
    subst hse
    exact absurd h (by decide)

/-- Every call in the trace produced by `runSeq` is one of the listed
calls. -/
theorem runSeq_mem {l : List (S3Call × Except JsErr Unit)} {c : S3Call}
    (h : c ∈ (runSeq l).1) : c ∈ l.map Prod.fst := by
  induction l with
  | nil => simp [runSeq] at h
  | cons p rest ih =>
    rcases p with ⟨pc, pe⟩
    cases pe with
    | ok u =>
      simp only [runSeq, List.mem_cons] at h
      rcases h with h | h
      · simp [h]
      · simp [ih h]
    | error e =>
      simp only [runSeq, List.mem_cons, List.not_mem_nil, or_false] at h
      simp [h]

/-- The post-creation configuration steps never issue a
`DeleteBucketCommand`. -/
theorem postCreateSteps_no_delete (B : S3Behavior) (nm : Option String) :
    ((runSeq (postCreateSteps B nm)).1.countP S3Call.isDelete) = 0 := by
  rw [List.countP_eq_zero]
  intro c hc
  have hmem := runSeq_mem hc
  simp only [postCreateSteps, List.map_cons, List.map_nil, List.mem_cons,
    List.not_mem_nil, or_false] at hmem
  rcases hmem with h | h | h | h | h | h <;> subst h <;> simp [S3Call.isDelete]

/-- The two branches of the rollback delete produce the same trace: the
outcome of the rollback call is discarded (logged only). -/
theorem rollback_delete_trace (B : S3Behavior) (bn : String) (trace : List S3Call) :
    (match B.deleteBucket (some bn) with
     | Except.ok _ => trace ++ [S3Call.deleteBucket (some bn)]
     | Except.error _ => trace ++ [S3Call.deleteBucket (some bn)]) =
    trace ++ [S3Call.deleteBucket (some bn)] := by
  cases B.deleteBucket (some bn) <;> rfl

/-- C3: for every string input that does not match the bucket-name
pattern, POST /api/buckets answers 400 `InvalidNameFormat` and issues
zero remote calls. -/
theorem invalid_name_no_remote_calls (B : S3Behavior) (s : String)
    (h : bucketNameMatches s = false) :
    createBucketHandler B (some s) =
      ({ status := 400, errorType := some "InvalidNameFormat",
         error := some "Formato de nombre inválido" }, []) := by
  unfold createBucketHandler
  simp [jsToString, h]

/-- Witness for C3 at the concrete non-matching name "ab". -/
theorem invalid_name_no_remote_calls_witness :
    bucketNameMatches "ab" = false ∧
    createBucketHandler allOkBehavior (some "ab") =
      ({ status := 400, errorType := some "InvalidNameFormat",
         error := some "Formato de nombre inválido" }, []) :=
  ⟨by decide, invalid_name_no_remote_calls allOkBehavior "ab" (by decide)⟩

/-- C4: for every valid name whose existence probe succeeds (the bucket
already exists), POST /api/buckets answers 409 `BucketAlreadyExists` and
issues exactly one remote call, the `HeadBucketCommand` probe. -/
theorem existing_bucket_conflict (B : S3Behavior) (s : String)
    (hval : bucketNameMatches s = true)
    (hhead : B.headBucket (some s) = Except.ok ()) :
    createBucketHandler B (some s) =
      ({ status := 409, errorType := some "BucketAlreadyExists",
         error := some "El bucket ya existe en AWS" },
       [S3Call.headBucket (some s)]) := by
  unfold createBucketHandler
  simp [jsToString, hval, hhead]

/-- Witness for C4 at the concrete name "my-site-1" on a provider where
the bucket exists. -/
theorem existing_bucket_conflict_witness :
    bucketNameMatches "my-site-1" = true ∧
    createBucketHandler allOkBehavior (some "my-site-1") =
      ({ status := 409, errorType := some "BucketAlreadyExists",
         error := some "El bucket ya existe en AWS" },
       [S3Call.headBucket (some "my-site-1")]) :=
  ⟨by decide, existing_bucket_conflict allOkBehavior "my-site-1" (by decide) rfl⟩

/-- The resolved rollback bucket name
(`req.body?.bucketName || 'nombre_no_definido'`) is never empty. -/
theorem jsOrStr_placeholder_ne_empty (v : Option String) :
    (jsOrStr v "nombre_no_definido" == "") = false := by
  unfold jsOrStr
  rcases v with _ | s
  · decide
  · rcases hs : (s == "") with _ | _ <;> simp [hs]

/-- The catch block of POST /api/buckets, on an error whose non-empty
name is not `BucketAlreadyExists`: it answers 500 with that name as
`errorType` and the generic message, and appends exactly the rollback
`DeleteBucketCommand` to the trace, whatever the rollback's own
outcome. -/
theorem rollbackAndRespond_named (B : S3Behavior) (bodyName : Option String)
    (err : JsErr) (n : String) (trace : List S3Call)
    (hn : err.name = some n) (hne : n ≠ "") (hnb : n ≠ "BucketAlreadyExists") :
    rollbackAndRespond B bodyName err trace =
      ({ status := 500, errorType := some n,
         error := some "Error al configurar el hosting estático" },
       trace ++ [S3Call.deleteBucket (some (jsOrStr bodyName "nombre_no_definido"))]) := by
  unfold rollbackAndRespond
  rw [hn]
  have hcond : (!(jsOrStr bodyName "nombre_no_definido" == "")
      && !((some n : Option String) == some "BucketAlreadyExists")) = true := by
    simp [jsOrStr_placeholder_ne_empty, hnb]
  have herr : jsOrStr (some n) "UnknownError" = n := by
    simp [jsOrStr, hne]
  simp only [hcond, if_true, rollback_delete_trace, herr]

/-- A provider on which the existence probe throws `AccessDenied` and
every other call succeeds. -/
def probeAccessDeniedBehavior : S3Behavior where
  headBucket := fun _ => Except.error { name := some "AccessDenied" }
  createBucket := fun _ => Except.ok ()
  putPublicAccessBlock := fun _ => Except.ok ()
  putBucketPolicy := fun _ => Except.ok ()
  putBucketWebsite := fun _ => Except.ok ()
  putBucketCors := fun _ => Except.ok ()
  putObject := fun _ _ => Except.ok ()
  deleteBucket := fun _ => Except.ok ()
  getBucketLocation := fun _ => Except.ok none
  listObjectsV2 := fun _ => Except.ok (some [])

/-- C1 (counterexample): when the existence probe fails with
`AccessDenied` (a cause other than "not found"), the handler does
propagate the probe failure (500, `errorType` `AccessDenied`) but it DOES
issue a rollback `DeleteBucketCommand`, because the rethrown probe error
lands in the same catch block whose rollback guard only excludes
`BucketAlreadyExists` — refuting "no rollback delete-bucket call is
issued". -/
theorem probe_failure_issues_rollback_counterexample :
    (createBucketHandler probeAccessDeniedBehavior (some "my-site-1")).1.status = 500 ∧
    (createBucketHandler probeAccessDeniedBehavior (some "my-site-1")).1.errorType =
      some "AccessDenied" ∧
    (createBucketHandler probeAccessDeniedBehavior (some "my-site-1")).2 =
      [S3Call.headBucket (some "my-site-1"),
       S3Call.deleteBucket (some "my-site-1")] := by
  decide

/-- C1 (amended): if the existence probe fails with a (named, non-empty)
cause other than "not found", the workflow fails by propagating that
probe failure as the 500 response's `errorType`, and — unless that cause
is itself named `BucketAlreadyExists` — one rollback `DeleteBucketCommand`
IS issued, because the catch block's rollback guard applies to every
caught error, not only to failures of steps 3–8. -/
theorem probe_failure_propagates_with_rollback (B : S3Behavior) (s : String)
    (he : JsErr) (n : String)
    (hval : bucketNameMatches s = true)
    (hhead : B.headBucket (some s) = Except.error he)
    (hn : he.name = some n) (hne : n ≠ "")
    (hnotfound : n ≠ "NotFound") (hnb : n ≠ "BucketAlreadyExists") :
    (createBucketHandler B (some s)).1.status = 500 ∧
    (createBucketHandler B (some s)).1.errorType = some n ∧
    (createBucketHandler B (some s)).1.error =
      some "Error al configurar el hosting estático" ∧
    (createBucketHandler B (some s)).2 =
      [S3Call.headBucket (some s), S3Call.deleteBucket (some s)] := by
  have hsne : (s == "") = false := bucketNameMatches_ne_empty hval
  have hjs : jsOrStr (some s) "nombre_no_definido" = s := by
    simp [jsOrStr, hsne]
  have hnp : (he.name == some "NotFound") = false := by
    simp [hn, hnotfound]
  unfold createBucketHandler
  rw [show jsToString (some s) = s from rfl, hval, hhead]
  simp only [Bool.not_true, Bool.false_eq_true, if_false, hnp]
  rw [rollbackAndRespond_named B (some s) he n _ hn hne hnb, hjs]
  simp

/-- Witness for C1's amended theorem at the concrete probe failure
`AccessDenied` on the name "my-site-1". -/
theorem probe_failure_propagates_with_rollback_witness :
    (createBucketHandler probeAccessDeniedBehavior (some "my-site-1")).1.errorType =
      some "AccessDenied" ∧
    (createBucketHandler probeAccessDeniedBehavior (some "my-site-1")).2 =
      [S3Call.headBucket (some "my-site-1"),
       S3Call.deleteBucket (some "my-site-1")] := by
  have h := probe_failure_propagates_with_rollback probeAccessDeniedBehavior
    "my-site-1" { name := some "AccessDenied" } "AccessDenied"
    (by decide) rfl rfl (by decide) (by decide) (by decide)
  exact ⟨h.2.1, h.2.2.2⟩

/-- A provider on which the probe reports the name available, creation
succeeds, and the first configuration step throws an error named
`BucketAlreadyExists`; every other call succeeds. -/
def postStepConflictBehavior : S3Behavior where
  headBucket := fun _ => Except.error { name := some "NotFound" }
  createBucket := fun _ => Except.ok ()
  putPublicAccessBlock := fun _ => Except.error { name := some "BucketAlreadyExists" }
  putBucketPolicy := fun _ => Except.ok ()
  putBucketWebsite := fun _ => Except.ok ()
  putBucketCors := fun _ => Except.ok ()
  putObject := fun _ _ => Except.ok ()
  deleteBucket := fun _ => Except.ok ()
  getBucketLocation := fun _ => Except.ok none
  listObjectsV2 := fun _ => Except.ok (some [])

/-- C2 (counterexample): a run in which bucket creation succeeded and the
next step threw an error named `BucketAlreadyExists` attempts NO rollback
`DeleteBucketCommand` at all — the catch block's guard
`error.name !== 'BucketAlreadyExists'` skips the rollback — refuting
"exactly one rollback delete-bucket call is attempted" for every
post-creation failure. -/
theorem post_create_conflict_skips_rollback_counterexample :
    postStepConflictBehavior.createBucket (some "my-site-1") = Except.ok () ∧
    (runSeq (postCreateSteps postStepConflictBehavior (some "my-site-1"))).2 =
      some { name := some "BucketAlreadyExists", message := "" } ∧
    ((createBucketHandler postStepConflictBehavior (some "my-site-1")).2.countP
      S3Call.isDelete) = 0 ∧
    (createBucketHandler postStepConflictBehavior (some "my-site-1")).1.status = 500 :=
  ⟨rfl, rfl, rfl, rfl⟩

/-- A provider on which the probe reports the name available, creation
succeeds, the website-configuration step throws `AccessDenied`, and the
rollback delete itself fails with `NoSuchBucket`. -/
def postStepFailBehavior : S3Behavior where
  headBucket := fun _ => Except.error { name := some "NotFound" }
  createBucket := fun _ => Except.ok ()
  putPublicAccessBlock := fun _ => Except.ok ()
  putBucketPolicy := fun _ => Except.ok ()
  putBucketWebsite := fun _ => Except.error { name := some "AccessDenied" }
  putBucketCors := fun _ => Except.ok ()
  putObject := fun _ _ => Except.ok ()
  deleteBucket := fun _ => Except.error { name := some "NoSuchBucket" }
  getBucketLocation := fun _ => Except.ok none
  listObjectsV2 := fun _ => Except.ok (some [])

/-- C2 (amended): if bucket creation succeeds and a later configuration
step throws an error whose (non-empty) name is not `BucketAlreadyExists`,
exactly one rollback `DeleteBucketCommand` is attempted, the rollback's
own outcome never changes the response (it is only logged), and the 500
response carries the original failure's name as `errorType` together with
the generic message.  When the later step's error is itself named
`BucketAlreadyExists`, no rollback is attempted (see the
counterexample). -/
theorem rollback_after_post_create_failure (B : S3Behavior) (s : String)
    (he e : JsErr) (n : String) (t : List S3Call)
    (hval : bucketNameMatches s = true)
    (hhead : B.headBucket (some s) = Except.error he)
    (hnf : he.name = some "NotFound")
    (hcreate : B.createBucket (some s) = Except.ok ())
    (hrun : runSeq (postCreateSteps B (some s)) = (t, some e))
    (hname : e.name = some n) (hne : n ≠ "")
    (hnb : n ≠ "BucketAlreadyExists") :
    (createBucketHandler B (some s)).1.status = 500 ∧
    (createBucketHandler B (some s)).1.errorType = some n ∧
    (createBucketHandler B (some s)).1.error =
      some "Error al configurar el hosting estático" ∧
    (createBucketHandler B (some s)).2 =
      [S3Call.headBucket (some s), S3Call.createBucket (some s)] ++ t
        ++ [S3Call.deleteBucket (some s)] ∧
    ((createBucketHandler B (some s)).2.countP S3Call.isDelete) = 1 := by
  have hsne : (s == "") = false := bucketNameMatches_ne_empty hval
  have hjs : jsOrStr (some s) "nombre_no_definido" = s := by
    simp [jsOrStr, hsne]
  have hcount : t.countP S3Call.isDelete = 0 := by
    have hpc := postCreateSteps_no_delete B (some s)
    rw [hrun] at hpc
    exact hpc
  have hhandler : createBucketHandler B (some s) =
      ({ status := 500, errorType := some n,
         error := some "Error al configurar el hosting estático" },
       ([S3Call.headBucket (some s), S3Call.createBucket (some s)] ++ t)
         ++ [S3Call.deleteBucket (some s)]) := by
    unfold createBucketHandler
    rw [show jsToString (some s) = s from rfl, hval, hhead]
    simp only [hnf, Bool.not_true, Bool.false_eq_true, if_false, beq_self_eq_true, if_true]
    rw [hcreate, hrun]
    simp only [rollbackAndRespond_named B (some s) e n
      ([S3Call.headBucket (some s), S3Call.createBucket (some s)] ++ t) hname hne hnb, hjs]
  rw [hhandler]
  refine ⟨rfl, rfl, rfl, by simp, ?_⟩
  simp [List.countP_append, hcount, List.countP_cons, S3Call.isDelete]

/-- Witness for C2's amended theorem: the website-configuration step
throws `AccessDenied` and the rollback delete itself fails with
`NoSuchBucket`; the response still carries `AccessDenied` and exactly one
rollback delete appears in the trace. -/
theorem rollback_after_post_create_failure_witness :
    (createBucketHandler postStepFailBehavior (some "my-site-1")).1.status = 500 ∧
    (createBucketHandler postStepFailBehavior (some "my-site-1")).1.errorType =
      some "AccessDenied" ∧
    ((createBucketHandler postStepFailBehavior (some "my-site-1")).2.countP
      S3Call.isDelete) = 1 := by
  have h := rollback_after_post_create_failure postStepFailBehavior "my-site-1"
    { name := some "NotFound" } { name := some "AccessDenied" } "AccessDenied"
    [S3Call.putPublicAccessBlock (some "my-site-1"),
     S3Call.putBucketPolicy (some "my-site-1"),
     S3Call.putBucketWebsite (some "my-site-1")]
    (by decide) rfl rfl rfl rfl rfl (by decide) (by decide)
  exact ⟨h.1, h.2.1, h.2.2.2.2⟩

/-- C5: DELETE /api/buckets/:bucketName issues its `DeleteBucketCommand`
if and only if the content listing succeeded and showed zero objects:
(i) with one or more listed objects it answers 400 `BucketNotEmpty` and
issues no delete call; (ii) with zero objects (and a successful delete)
it succeeds and issues exactly one delete call after exactly one list
call; (iii) whenever a delete call appears in the trace, the listing
returned zero objects. -/
theorem delete_iff_listing_empty (B : S3Behavior) (s : String) :
    (∀ loc contents, B.getBucketLocation (some s) = Except.ok loc →
      B.listObjectsV2 (some s) = Except.ok contents →
      jsLenGtZero contents = true →
      (deleteBucketHandler B s).1.status = 400 ∧
      (deleteBucketHandler B s).1.errorType = some "BucketNotEmpty" ∧
      ((deleteBucketHandler B s).2.countP S3Call.isDelete) = 0) ∧
    (∀ loc contents, B.getBucketLocation (some s) = Except.ok loc →
      B.listObjectsV2 (some s) = Except.ok contents →
      jsLenGtZero contents = false →
      B.deleteBucket (some s) = Except.ok () →
      (deleteBucketHandler B s).1.status = 200 ∧
      (deleteBucketHandler B s).1.success = true ∧
      (deleteBucketHandler B s).2 =
        [S3Call.getBucketLocation (some s), S3Call.listObjectsV2 (some s),
         S3Call.deleteBucket (some s)]) ∧
    (∀ c, c ∈ (deleteBucketHandler B s).2 → S3Call.isDelete c = true →
      ∃ contents, B.listObjectsV2 (some s) = Except.ok contents ∧
        jsLenGtZero contents = false) := by
  refine ⟨?_, ?_, ?_⟩
  · intro loc contents hloc hlist hfull
    unfold deleteBucketHandler
    rw [hloc, hlist]
    simp [hfull, S3Call.isDelete, List.countP_cons, List.countP_nil]
  · intro loc contents hloc hlist hempty hdel
    unfold deleteBucketHandler
    rw [hloc, hlist]
    simp [hempty, hdel]
  · intro c hc hdel
    unfold deleteBucketHandler at hc
    rcases hloc : B.getBucketLocation (some s) with e | loc
    · rw [hloc] at hc
      simp only [List.mem_singleton] at hc
      rw [hc] at hdel
      exact absurd hdel (by simp [S3Call.isDelete])
    · rw [hloc] at hc
      rcases hlist : B.listObjectsV2 (some s) with e | contents
      · rw [hlist] at hc
        simp only [List.mem_cons, List.not_mem_nil, or_false] at hc
        rcases hc with hc | hc <;> rw [hc] at hdel <;>
          exact absurd hdel (by simp [S3Call.isDelete])
      · rw [hlist] at hc
        rcases hfull : jsLenGtZero contents with _ | _
        · exact ⟨contents, rfl, hfull⟩
        · simp only [hfull, if_true, List.mem_cons, List.not_mem_nil, or_false] at hc
          rcases hc with hc | hc <;> rw [hc] at hdel <;>
            exact absurd hdel (by simp [S3Call.isDelete])

/-- Witness for C5 on a provider with an empty, existing bucket: the
handler succeeds with the trace location-probe, list, delete. -/
theorem delete_iff_listing_empty_witness :
    (deleteBucketHandler allOkBehavior "my-site-1").1.status = 200 ∧
    (deleteBucketHandler allOkBehavior "my-site-1").1.success = true ∧
    (deleteBucketHandler allOkBehavior "my-site-1").2 =
      [S3Call.getBucketLocation (some "my-site-1"),
       S3Call.listObjectsV2 (some "my-site-1"),
       S3Call.deleteBucket (some "my-site-1")] :=
  (delete_iff_listing_empty allOkBehavior "my-site-1").2.1 none (some [])
    rfl rfl (by decide) rfl

/-- A compute provider on which the uniqueness probe reports the name
available (`NotFoundException`) and key-pair and instance creation
succeed, the key pair carrying its private key in the primary field. -/
def lsOkBehavior : LsBehavior where
  getInstance := fun _ => Except.error { name := some "NotFoundException" }
  createKeyPair := fun _ =>
    Except.ok { privateKey := some "PRIVATE-KEY-MATERIAL", privateKeyBase64 := none }
  createInstances := fun _ _ _ _ _ => Except.ok { operations := some ["op-1"] }

/-- A compute provider on which an instance with the requested name
already exists: the uniqueness probe succeeds. -/
def lsExistingInstanceBehavior : LsBehavior where
  getInstance := fun _ => Except.ok ()
  createKeyPair := fun _ =>
    Except.ok { privateKey := some "PRIVATE-KEY-MATERIAL", privateKeyBase64 := none }
  createInstances := fun _ _ _ _ _ => Except.ok { operations := some ["op-1"] }

/-- A compute provider whose `CreateKeyPairCommand` response carries
neither `privateKey` nor `privateKeyBase64`. -/
def lsNoKeyBehavior : LsBehavior where
  getInstance := fun _ => Except.error { name := some "DoesNotExist" }
  createKeyPair := fun _ => Except.ok { privateKey := none, privateKeyBase64 := none }
  createInstances := fun _ _ _ _ _ => Except.ok { operations := some ["op-1"] }

/-- C6: an instance-provisioning request with any of the four required
fields absent, or whose `availabilityZone` does not start with the
configured compute region, is answered 400 with zero remote calls — in
particular a zone mismatch fails before the name-uniqueness probe. -/
theorem instance_validation_local (B : LsBehavior) (region uuid : String)
    (iN bp bu az : Option String)
    (h : iN = none ∨ bp = none ∨ bu = none ∨ az = none ∨
      jsStartsWith (jsToString az) region = false) :
    (createInstanceHandler B region uuid iN bp bu az).1.status = 400 ∧
    (createInstanceHandler B region uuid iN bp bu az).2 = [] := by
  rcases h with h | h | h | h | h
  · subst h; unfold createInstanceHandler; simp [jsTruthy]
  · subst h
    unfold createInstanceHandler
    rcases hiN : jsTruthy iN with _ | _ <;> simp [hiN, jsTruthy]
  · subst h
    unfold createInstanceHandler
    rcases hiN : jsTruthy iN with _ | _ <;>
      rcases hbp : jsTruthy bp with _ | _ <;> simp [hiN, hbp, jsTruthy]
  · subst h
    unfold createInstanceHandler
    rcases hiN : jsTruthy iN with _ | _ <;>
      rcases hbp : jsTruthy bp with _ | _ <;>
      rcases hbu : jsTruthy bu with _ | _ <;> simp [hiN, hbp, hbu, jsTruthy]
  · unfold createInstanceHandler
    rcases hiN : jsTruthy iN with _ | _ <;>
      rcases hbp : jsTruthy bp with _ | _ <;>
      rcases hbu : jsTruthy bu with _ | _ <;>
      rcases haz : jsTruthy az with _ | _ <;>
      simp [hiN, hbp, hbu, haz, h]

/-- Witness for C6 at a concrete zone mismatch: all fields present but
`availabilityZone` "us-east-1a" does not start with region
"eu-south-2"; the handler answers 400 and issues no Lightsail call. -/
theorem instance_validation_local_witness :
    (createInstanceHandler lsOkBehavior "eu-south-2" "u-1" (some "web-1")
      (some "ubuntu") (some "nano") (some "us-east-1a")).1.status = 400 ∧
    (createInstanceHandler lsOkBehavior "eu-south-2" "u-1" (some "web-1")
      (some "ubuntu") (some "nano") (some "us-east-1a")).2 = [] :=
  instance_validation_local lsOkBehavior "eu-south-2" "u-1" (some "web-1")
    (some "ubuntu") (some "nano") (some "us-east-1a")
    (Or.inr (Or.inr (Or.inr (Or.inr (by decide)))))

/-- C7: when all fields validate and the name-uniqueness probe succeeds
(an instance with that name exists), the handler answers 409
`InstanceAlreadyExists` and issues no `CreateKeyPairCommand`: the only
remote call is the probe. -/
theorem existing_instance_conflict (B : LsBehavior) (region uuid : String)
    (iN bp bu az : Option String)
    (hiN : jsTruthy iN = true) (hbp : jsTruthy bp = true)
    (hbu : jsTruthy bu = true) (haz : jsTruthy az = true)
    (hzone : jsStartsWith (jsToString az) region = true)
    (hget : B.getInstance iN = Except.ok ()) :
    (createInstanceHandler B region uuid iN bp bu az).1.status = 409 ∧
    (createInstanceHandler B region uuid iN bp bu az).1.errorType =
      some "InstanceAlreadyExists" ∧
    (createInstanceHandler B region uuid iN bp bu az).2 = [LsCall.getInstance iN] ∧
    ((createInstanceHandler B region uuid iN bp bu az).2.countP
      LsCall.isCreateKeyPair) = 0 := by
  unfold createInstanceHandler
  rw [hget]
  simp [hiN, hbp, hbu, haz, hzone, LsCall.isCreateKeyPair, List.countP_cons, List.countP_nil]

/-- Witness for C7 on a provider where instance "web-1" exists. -/
theorem existing_instance_conflict_witness :
    (createInstanceHandler lsExistingInstanceBehavior "eu-south-2" "u-1" (some "web-1")
      (some "ubuntu") (some "nano") (some "eu-south-2a")).1.status = 409 ∧
    (createInstanceHandler lsExistingInstanceBehavior "eu-south-2" "u-1" (some "web-1")
      (some "ubuntu") (some "nano") (some "eu-south-2a")).2 =
      [LsCall.getInstance (some "web-1")] := by
  have h := existing_instance_conflict lsExistingInstanceBehavior "eu-south-2" "u-1"
    (some "web-1") (some "ubuntu") (some "nano") (some "eu-south-2a")
    (by decide) (by decide) (by decide) (by decide) (by decide) rfl
  exact ⟨h.1, h.2.2.1⟩

/-- C8: the private key is `keyPairData.privateKey || keyPairData.privateKeyBase64`
— the primary field when truthy, otherwise the encoded-field fallback; if
neither field is present the handler answers 500
`PrivateKeyMissingInResponse` and issues no `CreateInstancesCommand`; on
full success the 201 response carries that non-empty private key together
with the generated key-pair name `my-app-<uuid>`. -/
theorem private_key_extraction (B : LsBehavior) (region uuid : String)
    (iN bp bu az : Option String) (probeErr : JsErr) (kp : KeyPairResp)
    (hiN : jsTruthy iN = true) (hbp : jsTruthy bp = true)
    (hbu : jsTruthy bu = true) (haz : jsTruthy az = true)
    (hzone : jsStartsWith (jsToString az) region = true)
    (hget : B.getInstance iN = Except.error probeErr)
    (hmiss : probeErr.name = some "NotFoundException")
    (hkp : B.createKeyPair ("my-app-" ++ uuid) = Except.ok kp) :
    (jsTruthy kp.privateKey = true →
      jsOrOpt kp.privateKey kp.privateKeyBase64 = kp.privateKey) ∧
    (jsTruthy kp.privateKey = false →
      jsOrOpt kp.privateKey kp.privateKeyBase64 = kp.privateKeyBase64) ∧
    (kp.privateKey = none → kp.privateKeyBase64 = none →
      (createInstanceHandler B region uuid iN bp bu az).1.status = 500 ∧
      (createInstanceHandler B region uuid iN bp bu az).1.errorType =
        some "PrivateKeyMissingInResponse" ∧
      ((createInstanceHandler B region uuid iN bp bu az).2.countP
        LsCall.isCreateInstances) = 0) ∧
    (∀ resp, jsTruthy (jsOrOpt kp.privateKey kp.privateKeyBase64) = true →
      B.createInstances iN bp bu az ("my-app-" ++ uuid) = Except.ok resp →
      (createInstanceHandler B region uuid iN bp bu az).1.status = 201 ∧
      (createInstanceHandler B region uuid iN bp bu az).1.success = true ∧
      (createInstanceHandler B region uuid iN bp bu az).1.privateKey =
        jsOrOpt kp.privateKey kp.privateKeyBase64 ∧
      jsTruthy (createInstanceHandler B region uuid iN bp bu az).1.privateKey = true ∧
      (createInstanceHandler B region uuid iN bp bu az).1.keyPairName =
        some ("my-app-" ++ uuid)) := by
  refine ⟨?_, ?_, ?_, ?_⟩
  · intro ht
    simp [jsOrOpt, ht]
  · intro hf
    simp [jsOrOpt, hf]
  · intro h1 h2
    have hnokey : jsOrOpt kp.privateKey kp.privateKeyBase64 = none := by
      rw [h1, h2]
      rfl
    have hjn : jsTruthy none = false := rfl
    unfold createInstanceHandler
    rw [hget]
    simp [hiN, hbp, hbu, haz, hzone, hmiss, hkp, hnokey, hjn,
      LsCall.isCreateInstances, List.countP_cons, List.countP_nil]
  · intro resp hpk hci
    unfold createInstanceHandler
    rw [hget]
    simp [hiN, hbp, hbu, haz, hzone, hmiss, hkp, hpk, hci]

/-- Witness for C8's success conjunct: the provider returns the private
key in the primary field and instance creation succeeds; the 201 response
carries the non-empty key and the key-pair name "my-app-u-1". -/
theorem private_key_extraction_witness :
    (createInstanceHandler lsOkBehavior "eu-south-2" "u-1" (some "web-1")
      (some "ubuntu") (some "nano") (some "eu-south-2a")).1.status = 201 ∧
    (createInstanceHandler lsOkBehavior "eu-south-2" "u-1" (some "web-1")
      (some "ubuntu") (some "nano") (some "eu-south-2a")).1.privateKey =
      some "PRIVATE-KEY-MATERIAL" ∧
    (createInstanceHandler lsOkBehavior "eu-south-2" "u-1" (some "web-1")
      (some "ubuntu") (some "nano") (some "eu-south-2a")).1.keyPairName =
      some "my-app-u-1" := by
  have h := private_key_extraction lsOkBehavior "eu-south-2" "u-1" (some "web-1")
    (some "ubuntu") (some "nano") (some "eu-south-2a")
    { name := some "NotFoundException" }
    { privateKey := some "PRIVATE-KEY-MATERIAL", privateKeyBase64 := none }
    (by decide) (by decide) (by decide) (by decide) (by decide) rfl rfl rfl
  have hs := h.2.2.2 { operations := some ["op-1"] } (by decide) rfl
  exact ⟨hs.1, hs.2.2.1, hs.2.2.2.2⟩

/-- A storage provider where the probe reports "not found" but bucket
creation throws `InternalError`; the rollback delete succeeds. -/
def undefinedNameBehavior : S3Behavior where
  headBucket := fun _ => Except.error { name := some "NotFound" }
  createBucket := fun _ => Except.error { name := some "InternalError" }
  putPublicAccessBlock := fun _ => Except.ok ()
  putBucketPolicy := fun _ => Except.ok ()
  putBucketWebsite := fun _ => Except.ok ()
  putBucketCors := fun _ => Except.ok ()
  putObject := fun _ _ => Except.ok ()
  deleteBucket := fun _ => Except.ok ()
  getBucketLocation := fun _ => Except.ok none
  listObjectsV2 := fun _ => Except.ok (some [])

/-- C9: a POST /api/buckets body without `bucketName` bypasses the syntax
check — the regex `test` coerces `undefined` to the 9-character lowercase
string "undefined", which matches the pattern — so the workflow issues
remote calls (the probe and the create, both with the undefined bucket
argument); when the create then fails, the rollback path issues a
`DeleteBucketCommand` for the placeholder name 'nombre_no_definido'. -/
theorem missing_name_bypasses_validation :
    jsToString none = "undefined" ∧
    bucketNameMatches (jsToString none) = true ∧
    (createBucketHandler undefinedNameBehavior none).2 =
      [S3Call.headBucket none, S3Call.createBucket none,
       S3Call.deleteBucket (some "nombre_no_definido")] ∧
    (createBucketHandler undefinedNameBehavior none).1.status = 500 := by
  decide

/-- C10: GET /api/buckets/:bucketName/website-test always answers 500
with "Error testing website" and never issues a `fetch`: the handler
calls `getWebsiteEndpoint`, an identifier bound nowhere in the program,
so evaluation throws a `ReferenceError` caught by the handler's catch
block before fetching. -/
theorem website_test_always_fails (fetch : String → Except JsErr FetchResp)
    (bucketName region : String) :
    websiteTestHandler resolveGetWebsiteEndpoint fetch bucketName region =
      ({ status := 500, error := some "Error testing website" }, false) := rfl
